import Mathlib

set_option maxHeartbeats 1000000

/-!
Shallow embedding of the BSC PBS relay subsystem: the relay registry
(`ClientMapping` in miner/miner.go), the validator-registration broadcaster
(`Miner.registerValidator`, `Miner.AddRelay`), the proposal deadline and
simulation pipeline (`Miner.ProposedBlock`), the builder-bid ingress
(internal/ethapi/builder_api.go) and the gRPC relay proposal ingress
(`Proposer.ProposeBlock`).

Network dialing, the RPC/gRPC call outcomes, transaction decoding and the
cryptographic primitives are external collaborators; they enter the
definitions as explicit oracle arguments, so every definition is executable
on concrete inputs.
-/

/-- Result of a Go function call: a runtime panic (used to model the nil
pointer dereference and `hexutil.MustDecode`), a normal non-nil error value,
or a success value. -/
inductive GoResult (E A : Type) where
  | panicked (msg : String)
  | err (e : E)
  | ok (a : A)
deriving DecidableEq

/-! ## Relay registry (`ClientMapping`, miner/miner.go lines 55-203) -/

/-- State of the relay registry: the key sets of the two Go maps
`clientMap : map[string]*rpc.Client` and
`clientGrpcMap : map[string]pb.ProposerClient`. The client handles carry no
information relevant to membership, so only the endpoint keys are kept. -/
structure ClientMapping where
  clientMap : List String
  clientGrpcMap : List String
deriving DecidableEq

/-- Go map insertion restricted to the key set: storing under an existing key
replaces its value and leaves the key set (hence the map length) unchanged;
storing under a fresh key extends the key set. -/
def mapInsert (k : String) (l : List String) : List String :=
  if k ∈ l then l else l ++ [k]

/-- ClientMapping.Len (miner.go 96-100): size of the legacy pool. -/
def ClientMapping.Len (c : ClientMapping) : Nat :=
  c.clientMap.length

/-- ClientMapping.LenGRPC (miner.go 161-165): size of the gRPC pool. -/
def ClientMapping.LenGRPC (c : ClientMapping) : Nat :=
  c.clientGrpcMap.length

/-- ClientMapping.Get (miner.go 114-120): the ok flag of the legacy map
lookup (the client handle itself is omitted). -/
def ClientMapping.Get (c : ClientMapping) (relay : String) : Bool :=
  decide (relay ∈ c.clientMap)

/-- ClientMapping.GetGRPC (miner.go 184-190): the ok flag of the gRPC map
lookup. -/
def ClientMapping.GetGRPC (c : ClientMapping) (relay : String) : Bool :=
  decide (relay ∈ c.clientGrpcMap)

/-- ClientMapping.Add (miner.go 122-134): dial the relay (the dial outcome is
an oracle argument, networking being external); on dial failure return the
error and leave the map unchanged, otherwise store the endpoint. The returned
client handle is omitted; the new registry state is returned instead. -/
def ClientMapping.Add (dialErr : Option String) (c : ClientMapping)
    (relay : String) : Option String × ClientMapping :=
  match dialErr with
  | some e => (some e, c)
  | none => (none, { c with clientMap := mapInsert relay c.clientMap })

/-- ClientMapping.Remove (miner.go 136-147): error if the endpoint is absent
from the legacy map, otherwise delete it. -/
def ClientMapping.Remove (c : ClientMapping) (relay : String) :
    Option String × ClientMapping :=
  if relay ∈ c.clientMap then
    (none, { c with clientMap := c.clientMap.erase relay })
  else
    (some ("relay " ++ relay ++ " not found"), c)

/-- ClientMapping.AddGrpc (miner.go 167-182): same shape as Add, on the gRPC
pool. -/
def ClientMapping.AddGrpc (dialErr : Option String) (c : ClientMapping)
    (relay : String) : Option String × ClientMapping :=
  match dialErr with
  | some e => (some e, c)
  | none => (none, { c with clientGrpcMap := mapInsert relay c.clientGrpcMap })

/-- ClientMapping.RemoveGrpc (miner.go 192-203): error if the endpoint is
absent from the gRPC map, otherwise delete it. -/
def ClientMapping.RemoveGrpc (c : ClientMapping) (relay : String) :
    Option String × ClientMapping :=
  if relay ∈ c.clientGrpcMap then
    (none, { c with clientGrpcMap := c.clientGrpcMap.erase relay })
  else
    (some ("relay grpc " ++ relay ++ " not found"), c)

/-! ## Validator registration broadcaster (miner.go 535-613) -/

/-- Which relays receive a registration call on each transport during one
broadcast. -/
structure RegistrationCalls where
  grpcCalls : List String
  rpcCalls : List String
deriving DecidableEq

/-- Miner.registerValidator (miner.go 535-564) together with
Miner.registerValidatorViaGRPC (566-584), reduced to the set of calls issued:
if the gRPC callback URI is configured (non-empty) and the gRPC pool is
non-empty, one RegisterValidator gRPC call goes to every relay of the gRPC
snapshot and the legacy path is skipped entirely; otherwise one
eth_registerValidator legacy-RPC call goes to every relay of the legacy
snapshot. -/
def registerValidator (proposedBlockGrpcUri : String) (c : ClientMapping) :
    RegistrationCalls :=
  if proposedBlockGrpcUri ≠ "" ∧ c.LenGRPC ≠ 0 then
    { grpcCalls := c.clientGrpcMap, rpcCalls := [] }
  else
    { grpcCalls := [], rpcCalls := c.clientMap }

/-- Miner.AddRelay (miner.go 586-613): add the relay to the registry (dial
oracle as in Add); if the dial fails return that error with the registry
unchanged; otherwise issue one synchronous eth_registerValidator call to just
that relay (outcome supplied as the call oracle). A call failure is returned
to the caller, but the relay is not removed from the registry. -/
def AddRelay (dialErr callErr : Option String) (c : ClientMapping)
    (relay : String) : Option String × ClientMapping :=
  match ClientMapping.Add dialErr c relay with
  | (some e, c1) => (some e, c1)
  | (none, c1) =>
    match callErr with
    | some e => (some e, c1)
    | none => (none, c1)

/-! ## Theorems: registry and registration broadcaster -/

/-- Claim C3: whenever at least one gRPC relay is registered and a gRPC
callback URI is configured, a registration broadcast issues calls only over
gRPC (to every gRPC relay) and zero legacy-RPC calls, regardless of the
legacy pool; otherwise it broadcasts over legacy RPC to every legacy relay
and issues no gRPC call. -/
theorem registerValidator_policy (uri : String) (c : ClientMapping) :
    ((uri ≠ "" ∧ c.LenGRPC ≠ 0) →
      (registerValidator uri c).rpcCalls = [] ∧
      (registerValidator uri c).grpcCalls = c.clientGrpcMap) ∧
    (¬(uri ≠ "" ∧ c.LenGRPC ≠ 0) →
      (registerValidator uri c).rpcCalls = c.clientMap ∧
      (registerValidator uri c).grpcCalls = []) := by
  constructor
  · intro h
    simp [registerValidator, h]
  · intro h
    simp [registerValidator, h]

/-- Witness for C3: a registry with two legacy relays and one gRPC relay plus
a configured gRPC URI broadcasts only over gRPC; the same registry with no
gRPC relay broadcasts to every legacy relay. -/
theorem registerValidator_policy_w :
    ((registerValidator "uri" ⟨["l1", "l2"], ["g1"]⟩).rpcCalls = [] ∧
      (registerValidator "uri" ⟨["l1", "l2"], ["g1"]⟩).grpcCalls = ["g1"]) ∧
    ((registerValidator "uri" ⟨["l1", "l2"], []⟩).rpcCalls = ["l1", "l2"] ∧
      (registerValidator "uri" ⟨["l1", "l2"], []⟩).grpcCalls = []) :=
  ⟨(registerValidator_policy "uri" ⟨["l1", "l2"], ["g1"]⟩).1
      ⟨by decide, by decide⟩,
    (registerValidator_policy "uri" ⟨["l1", "l2"], []⟩).2 (by decide)⟩

/-- Claim C9 as frozen is false: an endpoint that is already a member can be
Added again successfully (Go map insert replaces, count unchanged), after
which Remove succeeds but leaves the count one below the count prior to the
Add, not equal to it. -/
theorem mapping_double_add_cex :
    ClientMapping.Add none ⟨["r"], []⟩ "r" = (none, ⟨["r"], []⟩) ∧
    ClientMapping.Remove ⟨["r"], []⟩ "r" = (none, ⟨[], []⟩) ∧
    ClientMapping.Len ⟨[], []⟩ ≠ ClientMapping.Len ⟨["r"], []⟩ := by
  decide

/-- Claim C9 (amended), quantified per pool kind: for an endpoint not
currently present in the pool of the given kind — membership in the other
kind's pool is irrelevant — Remove of that kind returns the not-found error
with the state unchanged; and after a successful Add of that kind the count
of that pool is incremented and the endpoint found, and a subsequent Remove
of that kind succeeds and restores the exact prior registry state (hence the
prior membership count). -/
theorem mapping_remove_add (c : ClientMapping) (r : String) :
    (r ∉ c.clientMap →
      c.Remove r = (some ("relay " ++ r ++ " not found"), c) ∧
      (ClientMapping.Add none c r).1 = none ∧
      (ClientMapping.Add none c r).2.Get r = true ∧
      (ClientMapping.Add none c r).2.Len = c.Len + 1 ∧
      ((ClientMapping.Add none c r).2.Remove r).1 = none ∧
      ((ClientMapping.Add none c r).2.Remove r).2 = c) ∧
    (r ∉ c.clientGrpcMap →
      c.RemoveGrpc r = (some ("relay grpc " ++ r ++ " not found"), c) ∧
      (ClientMapping.AddGrpc none c r).1 = none ∧
      (ClientMapping.AddGrpc none c r).2.GetGRPC r = true ∧
      (ClientMapping.AddGrpc none c r).2.LenGRPC = c.LenGRPC + 1 ∧
      ((ClientMapping.AddGrpc none c r).2.RemoveGrpc r).1 = none ∧
      ((ClientMapping.AddGrpc none c r).2.RemoveGrpc r).2 = c) := by
  constructor
  · intro h1
    have e1 : mapInsert r c.clientMap = c.clientMap ++ [r] := if_neg h1
    have d1 : (c.clientMap ++ [r]).erase r = c.clientMap := by
      rw [List.erase_append_right _ h1, List.erase_cons_head, List.append_nil]
    refine ⟨?_, rfl, ?_, ?_, ?_, ?_⟩
    · simp [ClientMapping.Remove, h1]
    · simp [ClientMapping.Add, ClientMapping.Get, e1]
    · simp [ClientMapping.Add, ClientMapping.Len, e1]
    · simp [ClientMapping.Add, ClientMapping.Remove, e1]
    · simp [ClientMapping.Add, ClientMapping.Remove, e1, d1]
  · intro h2
    have e2 : mapInsert r c.clientGrpcMap = c.clientGrpcMap ++ [r] :=
      if_neg h2
    have d2 : (c.clientGrpcMap ++ [r]).erase r = c.clientGrpcMap := by
      rw [List.erase_append_right _ h2, List.erase_cons_head, List.append_nil]
    refine ⟨?_, rfl, ?_, ?_, ?_, ?_⟩
    · simp [ClientMapping.RemoveGrpc, h2]
    · simp [ClientMapping.AddGrpc, ClientMapping.GetGRPC, e2]
    · simp [ClientMapping.AddGrpc, ClientMapping.LenGRPC, e2]
    · simp [ClientMapping.AddGrpc, ClientMapping.RemoveGrpc, e2]
    · simp [ClientMapping.AddGrpc, ClientMapping.RemoveGrpc, e2, d2]

/-- Witness for the amended C9: the legacy part at an endpoint "x" absent
from the legacy pool although registered in the gRPC pool, and the gRPC part
at an endpoint "x" absent from the gRPC pool although registered in the
legacy pool — membership in the other kind's pool does not matter. -/
theorem mapping_remove_add_w :
    (ClientMapping.Remove ⟨["y"], ["x"]⟩ "x" =
      (some ("relay " ++ "x" ++ " not found"), ⟨["y"], ["x"]⟩) ∧
    (ClientMapping.Add none ⟨["y"], ["x"]⟩ "x").1 = none ∧
    (ClientMapping.Add none ⟨["y"], ["x"]⟩ "x").2.Get "x" = true ∧
    (ClientMapping.Add none ⟨["y"], ["x"]⟩ "x").2.Len =
      ClientMapping.Len ⟨["y"], ["x"]⟩ + 1 ∧
    ((ClientMapping.Add none ⟨["y"], ["x"]⟩ "x").2.Remove "x").1 = none ∧
    ((ClientMapping.Add none ⟨["y"], ["x"]⟩ "x").2.Remove "x").2 =
      ⟨["y"], ["x"]⟩) ∧
    (ClientMapping.RemoveGrpc ⟨["x"], ["y"]⟩ "x" =
      (some ("relay grpc " ++ "x" ++ " not found"), ⟨["x"], ["y"]⟩) ∧
    (ClientMapping.AddGrpc none ⟨["x"], ["y"]⟩ "x").1 = none ∧
    (ClientMapping.AddGrpc none ⟨["x"], ["y"]⟩ "x").2.GetGRPC "x" = true ∧
    (ClientMapping.AddGrpc none ⟨["x"], ["y"]⟩ "x").2.LenGRPC =
      ClientMapping.LenGRPC ⟨["x"], ["y"]⟩ + 1 ∧
    ((ClientMapping.AddGrpc none ⟨["x"], ["y"]⟩ "x").2.RemoveGrpc "x").1 =
      none ∧
    ((ClientMapping.AddGrpc none ⟨["x"], ["y"]⟩ "x").2.RemoveGrpc "x").2 =
      ⟨["x"], ["y"]⟩) :=
  ⟨(mapping_remove_add ⟨["y"], ["x"]⟩ "x").1 (by decide),
    (mapping_remove_add ⟨["x"], ["y"]⟩ "x").2 (by decide)⟩

/-- Claim C10 as frozen is false: if the relay is already a member when
AddRelay dials it successfully and the registration call fails, the
registration error is returned and the relay remains present, but the
membership count is not incremented (the Add replaced the existing entry). -/
theorem addRelay_present_cex :
    AddRelay none (some "registration failed") ⟨["r"], []⟩ "r" =
      (some "registration failed", ⟨["r"], []⟩) ∧
    ClientMapping.Len ⟨["r"], []⟩ = 1 ∧
    (AddRelay none (some "registration failed") ⟨["r"], []⟩ "r").2.Len = 1 := by
  decide

/-- Claim C10 (amended): if AddRelay successfully dials a relay that was not
already a member and the subsequent synchronous eth_registerValidator call
fails, AddRelay returns the registration error while the relay remains added:
the resulting state is exactly the post-Add state (no rollback), a later Get
finds the relay, and the membership count is incremented. -/
theorem addRelay_no_rollback (c : ClientMapping) (r e : String)
    (h : r ∉ c.clientMap) :
    AddRelay none (some e) c r = (some e, (ClientMapping.Add none c r).2) ∧
    (AddRelay none (some e) c r).2.Get r = true ∧
    (AddRelay none (some e) c r).2.Len = c.Len + 1 := by
  have e1 : mapInsert r c.clientMap = c.clientMap ++ [r] := if_neg h
  refine ⟨rfl, ?_, ?_⟩
  · simp [AddRelay, ClientMapping.Add, ClientMapping.Get, e1]
  · simp [AddRelay, ClientMapping.Add, ClientMapping.Len, e1]

/-- Witness for the amended C10 at a concrete registry and a fresh relay. -/
theorem addRelay_no_rollback_w :
    AddRelay none (some "boom") ⟨["a"], []⟩ "b" =
      (some "boom", (ClientMapping.Add none ⟨["a"], []⟩ "b").2) ∧
    (AddRelay none (some "boom") ⟨["a"], []⟩ "b").2.Get "b" = true ∧
    (AddRelay none (some "boom") ⟨["a"], []⟩ "b").2.Len =
      ClientMapping.Len ⟨["a"], []⟩ + 1 :=
  addRelay_no_rollback ⟨["a"], []⟩ "b" "boom" (by decide)

/-! ## Proposal deadline and simulation pipeline (`Miner.ProposedBlock`,
miner.go 453-533) -/

/-- Fields of the miner and chain state read by ProposedBlock: the current
block's timestamp and the Parlia slot period (seconds), the configured
DelayLeftOver finalize reserve (nanoseconds, a Go time.Duration), and the
atomically read gas-limit fields together with the configured gas ceiling.
Timestamps stay far below 2^63, so unsigned wraparound is immaterial and
Nat/Int are used directly. -/
structure MinerState where
  currentBlockTime : Nat
  parliaPeriod : Nat
  delayLeftOver : Int
  currentGasLimit : Nat
  prevBlockGasLimit : Nat
  gasCeil : Nat
deriving DecidableEq

/-- Arguments of one proposed block, as received by ProposedBlock
(miner.go 454; the ProposedBlockArgs built at 506-515). -/
structure ProposedBlockInput where
  mevRelay : String
  blockNumber : Int
  prevBlockHash : String
  reward : Int
  gasLimit : Nat
  gasUsed : Nat
deriving DecidableEq

/-- Outcome of worker.simulateProposedBlock, an external collaborator: the
optional best-work result (nil means the block was deliberately skipped), the
elapsed simulation duration, and the optional error. -/
structure SimResult (W : Type) where
  work : Option W
  duration : Nat
  err : Option String
deriving DecidableEq

/-- Errors returned by ProposedBlock, one constructor per return site
(miner.go 464, 497, 503, 518, 528). -/
inductive PBError where
  | tooLate (timeout : Int)
  | gasUsedExceeds (gasUsed currentGasLimit : Nat)
  | gasLimitMismatch (gasLimit desiredGasLimit : Nat)
  | simulationFailed (msg : String)
  | ctxTimeout
deriving DecidableEq

/-- Observable outcome of one ProposedBlock call: the returned error (none on
success), the returned simulation duration, whether
worker.simulateProposedBlock was invoked, and whether an envelope was pushed
onto the worker.proposedCh handoff channel. -/
structure PBOutcome where
  err : Option PBError
  simDuration : Nat
  simInvoked : Bool
  enqueued : Bool
deriving DecidableEq

/-- End of the proposing window (miner.go 460), in nanoseconds:
time.Unix(currentBlockTime + parliaPeriod, 0).Add(-DelayLeftOver). -/
def endOfProposingWindow (st : MinerState) : Int :=
  ((st.currentBlockTime + st.parliaPeriod : Nat) : Int) * 1000000000
    - st.delayLeftOver

/-- Miner.ProposedBlock (miner.go 454-533). `now` is the wall clock at entry
in nanoseconds, so `endOfProposingWindow st - now` is time.Until of the
window end. `calcGasLimit` is core.CalcGasLimit, an external collaborator
passed as an oracle. `sim` is the outcome the simulation engine would
produce, and `ctxDoneFirst` resolves the final select race between the
context deadline and the handoff channel accepting the envelope. -/
def MinerProposedBlock {W : Type} (st : MinerState) (now : Int)
    (calcGasLimit : Nat → Nat → Nat) (inp : ProposedBlockInput)
    (sim : SimResult W) (ctxDoneFirst : Bool) : PBOutcome :=
  let timeout := endOfProposingWindow st - now
  if timeout ≤ 0 then
    { err := some (PBError.tooLate timeout), simDuration := 0,
      simInvoked := false, enqueued := false }
  else if st.currentGasLimit < inp.gasUsed then
    { err := some (PBError.gasUsedExceeds inp.gasUsed st.currentGasLimit),
      simDuration := 0, simInvoked := false, enqueued := false }
  else
    let desiredGasLimit := calcGasLimit st.prevBlockGasLimit st.gasCeil
    if desiredGasLimit ≠ inp.gasLimit then
      { err := some (PBError.gasLimitMismatch inp.gasLimit desiredGasLimit),
        simDuration := 0, simInvoked := false, enqueued := false }
    else
      match sim.err with
      | some e =>
        { err := some (PBError.simulationFailed e), simDuration := sim.duration,
          simInvoked := true, enqueued := false }
      | none =>
        match sim.work with
        | none =>
          { err := none, simDuration := sim.duration, simInvoked := true,
            enqueued := false }
        | some _ =>
          if ctxDoneFirst then
            { err := some PBError.ctxTimeout, simDuration := sim.duration,
              simInvoked := true, enqueued := false }
          else
            { err := none, simDuration := sim.duration, simInvoked := true,
              enqueued := true }

/-- Whether an outcome is the gas pre-check rejection of miner.go 495-499. -/
def PBOutcome.isGasUsedErr (o : PBOutcome) : Bool :=
  match o.err with
  | some (PBError.gasUsedExceeds _ _) => true
  | _ => false

/-! ## Theorems: proposal pipeline -/

/-- Claim C1: a proposal submitted strictly past the deadline (current block
timestamp plus slot period minus DelayLeftOver) returns the too-late timing
error carrying how far past the deadline it is, and the simulation engine is
never invoked. -/
theorem proposedBlock_too_late {W : Type} (st : MinerState) (now : Int)
    (calcGasLimit : Nat → Nat → Nat) (inp : ProposedBlockInput)
    (sim : SimResult W) (ctxDoneFirst : Bool)
    (h : endOfProposingWindow st < now) :
    (MinerProposedBlock st now calcGasLimit inp sim ctxDoneFirst).err =
      some (PBError.tooLate (endOfProposingWindow st - now)) ∧
    (MinerProposedBlock st now calcGasLimit inp sim ctxDoneFirst).simInvoked =
      false ∧
    (MinerProposedBlock st now calcGasLimit inp sim ctxDoneFirst).enqueued =
      false := by
  have hle : endOfProposingWindow st - now ≤ 0 := by omega
  simp [MinerProposedBlock, hle]

/-- Witness for C1: current block time 100 s, period 3 s, DelayLeftOver 1 s,
so the window ends at 102 s; a proposal arriving one nanosecond later is
rejected as too late with simulation never invoked. -/
theorem proposedBlock_too_late_w :
    (MinerProposedBlock ⟨100, 3, 1000000000, 10, 10, 10⟩
        102000000001 (fun a _ => a) ⟨"relay", 5, "h", 1, 10, 5⟩
        ⟨some (), 7, none⟩ false).err =
      some (PBError.tooLate
        (endOfProposingWindow ⟨100, 3, 1000000000, 10, 10, 10⟩
          - 102000000001)) ∧
    (MinerProposedBlock ⟨100, 3, 1000000000, 10, 10, 10⟩
        102000000001 (fun a _ => a) ⟨"relay", 5, "h", 1, 10, 5⟩
        ⟨some (), 7, none⟩ false).simInvoked = false ∧
    (MinerProposedBlock ⟨100, 3, 1000000000, 10, 10, 10⟩
        102000000001 (fun a _ => a) ⟨"relay", 5, "h", 1, 10, 5⟩
        ⟨some (), 7, none⟩ false).enqueued = false :=
  proposedBlock_too_late ⟨100, 3, 1000000000, 10, 10, 10⟩ 102000000001
    (fun a _ => a) ⟨"relay", 5, "h", 1, 10, 5⟩ ⟨some (), 7, none⟩ false
    (by decide)

/-- Helper: when the timing check passes and gasUsed does not exceed the
current gas limit, no branch of the pipeline produces the gas pre-check
rejection. -/
theorem pb_precheck_pass_aux {W : Type} (st : MinerState) (now : Int)
    (calcGasLimit : Nat → Nat → Nat) (inp : ProposedBlockInput)
    (sim : SimResult W) (ctxDoneFirst : Bool)
    (hgt : ¬ endOfProposingWindow st - now ≤ 0)
    (hlt : ¬ st.currentGasLimit < inp.gasUsed) :
    (MinerProposedBlock st now calcGasLimit inp sim
      ctxDoneFirst).isGasUsedErr = false := by
  rcases sim with ⟨work, dur, serr⟩
  by_cases hc : calcGasLimit st.prevBlockGasLimit st.gasCeil = inp.gasLimit
  · cases serr <;> cases work <;> cases ctxDoneFirst <;>
      simp [MinerProposedBlock, hgt, hlt, hc, PBOutcome.isGasUsedErr]
  · simp [MinerProposedBlock, hgt, hlt, hc, PBOutcome.isGasUsedErr]

/-- Claim C5: once the timing check passes, the gas pre-check rejects exactly
when gasUsed is strictly greater than the atomically read current gas limit;
in particular gasUsed equal to currentGasLimit passes the pre-check. -/
theorem proposedBlock_gas_precheck {W : Type} (st : MinerState) (now : Int)
    (calcGasLimit : Nat → Nat → Nat) (inp : ProposedBlockInput)
    (sim : SimResult W) (ctxDoneFirst : Bool)
    (h : 0 < endOfProposingWindow st - now) :
    ((MinerProposedBlock st now calcGasLimit inp sim
        ctxDoneFirst).isGasUsedErr = true ↔
      st.currentGasLimit < inp.gasUsed) ∧
    (inp.gasUsed = st.currentGasLimit →
      (MinerProposedBlock st now calcGasLimit inp sim
        ctxDoneFirst).isGasUsedErr = false) := by
  have hgt : ¬ endOfProposingWindow st - now ≤ 0 := by omega
  constructor
  · constructor
    · intro hg
      by_contra hlt
      rw [pb_precheck_pass_aux st now calcGasLimit inp sim ctxDoneFirst hgt
        hlt] at hg
      exact Bool.false_ne_true hg
    · intro hlt
      simp [MinerProposedBlock, hgt, hlt, PBOutcome.isGasUsedErr]
  · intro heq
    exact pb_precheck_pass_aux st now calcGasLimit inp sim ctxDoneFirst hgt
      (by omega)

/-- Witness for C5: with 8,000,000 as current gas limit, a proposal using
8,000,001 gas is rejected by the pre-check while one using exactly 8,000,000
passes it. -/
theorem proposedBlock_gas_precheck_w :
    (MinerProposedBlock ⟨100, 3, 1000000000, 8000000, 10, 10⟩ 0
        (fun a _ => a) ⟨"relay", 5, "h", 1, 10, 8000001⟩ ⟨some (), 7, none⟩
        false).isGasUsedErr = true ∧
    (MinerProposedBlock ⟨100, 3, 1000000000, 8000000, 10, 10⟩ 0
        (fun a _ => a) ⟨"relay", 5, "h", 1, 10, 8000000⟩ ⟨some (), 7, none⟩
        false).isGasUsedErr = false :=
  ⟨(proposedBlock_gas_precheck ⟨100, 3, 1000000000, 8000000, 10, 10⟩ 0
      (fun a _ => a) ⟨"relay", 5, "h", 1, 10, 8000001⟩ ⟨some (), 7, none⟩
      false (by decide)).1.mpr (by decide),
    (proposedBlock_gas_precheck ⟨100, 3, 1000000000, 8000000, 10, 10⟩ 0
      (fun a _ => a) ⟨"relay", 5, "h", 1, 10, 8000000⟩ ⟨some (), 7, none⟩
      false (by decide)).2 rfl⟩

/-- Claim C4: for a proposal that passes the timing and gas pre-checks, if
the submitted gasLimit differs from CalcGasLimit applied to the previous
block's gas limit and the configured gas ceiling, the pipeline returns the
mismatch error and the simulation engine is never invoked; if it is equal,
the check passes and the pipeline proceeds to simulation. -/
theorem proposedBlock_gaslimit_check {W : Type} (st : MinerState) (now : Int)
    (calcGasLimit : Nat → Nat → Nat) (inp : ProposedBlockInput)
    (sim : SimResult W) (ctxDoneFirst : Bool)
    (h1 : 0 < endOfProposingWindow st - now)
    (h2 : inp.gasUsed ≤ st.currentGasLimit) :
    (calcGasLimit st.prevBlockGasLimit st.gasCeil ≠ inp.gasLimit →
      (MinerProposedBlock st now calcGasLimit inp sim ctxDoneFirst).err =
        some (PBError.gasLimitMismatch inp.gasLimit
          (calcGasLimit st.prevBlockGasLimit st.gasCeil)) ∧
      (MinerProposedBlock st now calcGasLimit inp sim
        ctxDoneFirst).simInvoked = false) ∧
    (calcGasLimit st.prevBlockGasLimit st.gasCeil = inp.gasLimit →
      (MinerProposedBlock st now calcGasLimit inp sim
        ctxDoneFirst).simInvoked = true) := by
  have hgt : ¬ endOfProposingWindow st - now ≤ 0 := by omega
  have hlt : ¬ st.currentGasLimit < inp.gasUsed := by omega
  constructor
  · intro hc
    simp [MinerProposedBlock, hgt, hlt, hc]
  · intro hc
    rcases sim with ⟨work, dur, serr⟩
    cases serr <;> cases work <;> cases ctxDoneFirst <;>
      simp [MinerProposedBlock, hgt, hlt, hc]

/-- Witness for C4: with CalcGasLimit modelled concretely as returning
30,000,000, a proposal carrying gasLimit 29,999,999 is rejected with the
mismatch error and no simulation, while one carrying 30,000,000 reaches
simulation. -/
theorem proposedBlock_gaslimit_check_w :
    ((MinerProposedBlock ⟨100, 3, 1000000000, 8000000, 139, 140⟩
        0 (fun _ _ => 30000000) ⟨"relay", 5, "h", 1, 29999999, 7000000⟩
        ⟨some (), 7, none⟩ false).err =
      some (PBError.gasLimitMismatch 29999999 30000000) ∧
      (MinerProposedBlock ⟨100, 3, 1000000000, 8000000, 139, 140⟩
        0 (fun _ _ => 30000000) ⟨"relay", 5, "h", 1, 29999999, 7000000⟩
        ⟨some (), 7, none⟩ false).simInvoked = false) ∧
    (MinerProposedBlock ⟨100, 3, 1000000000, 8000000, 139, 140⟩
        0 (fun _ _ => 30000000) ⟨"relay", 5, "h", 1, 30000000, 7000000⟩
        ⟨some (), 7, none⟩ false).simInvoked = true :=
  ⟨(proposedBlock_gaslimit_check ⟨100, 3, 1000000000, 8000000, 139, 140⟩ 0
      (fun _ _ => 30000000) ⟨"relay", 5, "h", 1, 29999999, 7000000⟩
      ⟨some (), 7, none⟩ false (by decide) (by decide)).1 (by decide),
    (proposedBlock_gaslimit_check ⟨100, 3, 1000000000, 8000000, 139, 140⟩ 0
      (fun _ _ => 30000000) ⟨"relay", 5, "h", 1, 30000000, 7000000⟩
      ⟨some (), 7, none⟩ false (by decide) (by decide)).2 rfl⟩

/-- Claim C6: when the simulation returns a nil result together with a nil
error, the pipeline returns success (nil error) and pushes nothing onto the
block-building handoff channel; the simulation was really invoked, and the
outcome is distinguished from every failure by its nil error. -/
theorem proposedBlock_skip {W : Type} (st : MinerState) (now : Int)
    (calcGasLimit : Nat → Nat → Nat) (inp : ProposedBlockInput)
    (sim : SimResult W) (ctxDoneFirst : Bool)
    (h1 : 0 < endOfProposingWindow st - now)
    (h2 : inp.gasUsed ≤ st.currentGasLimit)
    (h3 : calcGasLimit st.prevBlockGasLimit st.gasCeil = inp.gasLimit)
    (h4 : sim.err = none) (h5 : sim.work = none) :
    (MinerProposedBlock st now calcGasLimit inp sim ctxDoneFirst).err =
      none ∧
    (MinerProposedBlock st now calcGasLimit inp sim ctxDoneFirst).enqueued =
      false ∧
    (MinerProposedBlock st now calcGasLimit inp sim
      ctxDoneFirst).simInvoked = true := by
  have hgt : ¬ endOfProposingWindow st - now ≤ 0 := by omega
  have hlt : ¬ st.currentGasLimit < inp.gasUsed := by omega
  simp [MinerProposedBlock, hgt, hlt, h3, h4, h5]

/-- Witness for C6 at a concrete state whose simulation yields a nil result
and a nil error. -/
theorem proposedBlock_skip_w :
    (MinerProposedBlock ⟨100, 3, 1000000000, 8000000, 139, 140⟩
        0 (fun _ _ => 30000000) ⟨"relay", 5, "h", 1, 30000000, 7000000⟩
        (⟨none, 42, none⟩ : SimResult Unit) false).err = none ∧
    (MinerProposedBlock ⟨100, 3, 1000000000, 8000000, 139, 140⟩
        0 (fun _ _ => 30000000) ⟨"relay", 5, "h", 1, 30000000, 7000000⟩
        (⟨none, 42, none⟩ : SimResult Unit) false).enqueued = false ∧
    (MinerProposedBlock ⟨100, 3, 1000000000, 8000000, 139, 140⟩
        0 (fun _ _ => 30000000) ⟨"relay", 5, "h", 1, 30000000, 7000000⟩
        (⟨none, 42, none⟩ : SimResult Unit) false).simInvoked = true :=
  proposedBlock_skip ⟨100, 3, 1000000000, 8000000, 139, 140⟩ 0
    (fun _ _ => 30000000) ⟨"relay", 5, "h", 1, 30000000, 7000000⟩
    (⟨none, 42, none⟩ : SimResult Unit) false (by decide) (by decide) rfl rfl rfl

/-! ## Builder bid ingress (internal/ethapi/builder_api.go 26-161) -/

/-- BidMessage (builder_api.go 26-43), generic in the raw-transaction type.
Go int64 fields are modelled as Int: the checks only compare against small
constants and each other, so two's-complement wraparound never arises. -/
structure BidMessage (Raw : Type) where
  block : Int
  parentHash : String
  timestamp : Int
  builderAddress : String
  gasLimit : Int
  gasValue : Int
  builderFeeValue : Int
  txs : List Raw

/-- BidArgs (builder_api.go 45-50): the message pointer (none models a nil
pointer) and the detached signature string. -/
structure BidArgs (Raw : Type) where
  message : Option (BidMessage Raw)
  signature : String

/-- Hex digit test. Modelled from the spec: addresses must be well-formed
hex (common.IsHexAddress, repository code outside src/). -/
def isHexChar (c : Char) : Bool :=
  ('0' ≤ c ∧ c ≤ '9') ∨ ('a' ≤ c ∧ c ≤ 'f') ∨ ('A' ≤ c ∧ c ≤ 'F')

/-- Address well-formedness test. Modelled from the spec: "addresses
well-formed", i.e. common.IsHexAddress (repository code outside src/): an
optional 0x/0X marker followed by exactly 40 hex digits. -/
def isHexAddress (s : String) : Bool :=
  let t : List Char :=
    match s.data with
    | '0' :: 'x' :: rest => rest
    | '0' :: 'X' :: rest => rest
    | l => l
  decide (t.length = 40) && t.all isHexChar

/-- Value of one hex digit. -/
def hexVal (c : Char) : Option Nat :=
  if '0' ≤ c ∧ c ≤ '9' then some (c.toNat - '0'.toNat)
  else if 'a' ≤ c ∧ c ≤ 'f' then some (c.toNat - 'a'.toNat + 10)
  else if 'A' ≤ c ∧ c ≤ 'F' then some (c.toNat - 'A'.toNat + 10)
  else none

/-- Decoding of the digit part of a hex string into bytes, two digits per
byte. -/
def decodeHexBody : List Char → Except String (List Nat)
  | [] => Except.ok []
  | [_] => Except.error "hex string of odd length"
  | c1 :: c2 :: rest =>
    match hexVal c1, hexVal c2 with
    | some h, some l =>
      match decodeHexBody rest with
      | Except.error e => Except.error e
      | Except.ok bs => Except.ok ((16 * h + l) :: bs)
    | _, _ => Except.error "invalid hex string"

/-- Hex decoding of a 0x-prefixed string. Modelled from the spec: the
signature is a hex string (hexutil.Decode, repository code outside src/); an
empty input, a missing 0x marker, an odd digit count or a non-hex digit is a
decode error; hexutil.MustDecode turns such an error into a panic. -/
def hexutilDecode (s : String) : Except String (List Nat) :=
  match s.data with
  | [] => Except.error "empty hex string"
  | '0' :: 'x' :: rest => decodeHexBody rest
  | '0' :: 'X' :: rest => decodeHexBody rest
  | _ => Except.error "hex string without 0x marker"

/-- Message of the Go panic raised by dereferencing a nil pointer. -/
def nilDerefMsg : String :=
  "runtime error: invalid memory address or nil pointer dereference"

/-- checkBasic on a non-nil message (builder_api.go 53-85, after the
dereference of args.Message succeeded). -/
def checkBasicMsg {Raw : Type} (m : BidMessage Raw) : GoResult String Unit :=
  if m.block = 0 then GoResult.err "missing block number"
  else if m.parentHash = "" then GoResult.err "missing parent hash"
  else if m.gasLimit ≤ 0 then GoResult.err "missing gas limit"
  else if m.gasValue ≤ 0 then GoResult.err "missing gas value"
  else if m.builderFeeValue < 0 then GoResult.err "invalid builder fee"
  else if m.gasValue ≤ m.builderFeeValue then
    GoResult.err "gas value is lower than builder fee"
  else if m.builderAddress = "" then GoResult.err "missing builder address"
  else if isHexAddress m.builderAddress = false then
    GoResult.err "wrong builder address format"
  else GoResult.ok ()

/-- checkBasic (builder_api.go 52-86): the first field access
args.Message.Block dereferences the message pointer, so a nil message is a
runtime panic, not an error return. -/
def checkBasic {Raw : Type} : Option (BidMessage Raw) → GoResult String Unit
  | none => GoResult.panicked nilDerefMsg
  | some m => checkBasicMsg m

/-- External collaborators of the bid path, supplied as oracles: the
builder-enabled flag and current block of the backend, the binary
transaction codec, the RLP encoder, the three crypto primitives of
checkSignature, address parsing, and the backend bid-acceptance hook. -/
structure BidEnv (Raw Tx Pk Pub Addr : Type) where
  enabled : Bool
  curNumber : Int
  curHash : String
  decodeTx : Raw → Except String Tx
  rlpEncode : BidMessage Raw → Except String (List Nat)
  ecrecover : List Nat → List Nat → Except String Pk
  unmarshalPubkey : Pk → Except String Pub
  pubkeyToAddress : Pub → Addr
  hexToAddress : String → Addr
  backendBid : Addr → Int → List Tx → Int → Int → Int → Except String Unit

/-- Sequential decoding of the raw transactions (builder_api.go 100-106):
the first decode failure aborts with that error. -/
def decodeTxs {Raw Tx : Type} (d : Raw → Except String Tx) :
    List Raw → Except String (List Tx)
  | [] => Except.ok []
  | r :: rs =>
    match d r with
    | Except.error e => Except.error e
    | Except.ok t =>
      match decodeTxs d rs with
      | Except.error e => Except.error e
      | Except.ok ts => Except.ok (t :: ts)

/-- checkBlock (builder_api.go 88-109): bid height must be current height
plus one, parent hash must match the current block hash, and every raw
transaction must decode. -/
def checkBlock {Raw Tx Pk Pub Addr : Type} (env : BidEnv Raw Tx Pk Pub Addr)
    (m : BidMessage Raw) : GoResult String (List Tx) :=
  if m.block ≠ env.curNumber + 1 then GoResult.err "invalid block height"
  else if m.parentHash ≠ env.curHash then GoResult.err "invalid parent hash"
  else
    match decodeTxs env.decodeTx m.txs with
    | Except.error e => GoResult.err ("invalid txs: " ++ e)
    | Except.ok txs => GoResult.ok txs

/-- checkSignature (builder_api.go 111-135): RLP-encode the message, decode
the signature with hexutil.MustDecode (which panics on malformed hex),
recover and unmarshal the signer public key, and require the derived address
to equal the declared builder address. -/
def checkSignature {Raw Tx Pk Pub Addr : Type} [DecidableEq Addr]
    (env : BidEnv Raw Tx Pk Pub Addr) (m : BidMessage Raw)
    (signature : String) : GoResult String Unit :=
  match env.rlpEncode m with
  | Except.error e =>
    GoResult.err ("fail to verify signature, err: " ++ e)
  | Except.ok hash =>
    match hexutilDecode signature with
    | Except.error e => GoResult.panicked e
    | Except.ok sig =>
      match env.ecrecover hash sig with
      | Except.error e =>
        GoResult.err ("fail to verify signature, err: " ++ e)
      | Except.ok pk =>
        match env.unmarshalPubkey pk with
        | Except.error e =>
          GoResult.err ("fail to verify signature, err: " ++ e)
        | Except.ok pub =>
          if env.pubkeyToAddress pub ≠ env.hexToAddress m.builderAddress then
            GoResult.err "invalid signature: wrong signer"
          else GoResult.ok ()

/-- Observable outcome of one Bid call: the returned value and which of the
later stages were reached. -/
structure BidTrace where
  result : GoResult String Unit
  blockCheckRan : Bool
  sigCheckRan : Bool
  backendInvoked : Bool
deriving DecidableEq

/-- PublicBuilderAPI.Bid (builder_api.go 137-161): enabled gate, then
checkBasic, checkBlock, checkSignature in order, then the backend
bid-acceptance hook. The nil-message dereference of checkBasic and any panic
of checkSignature propagate as panics. -/
def Bid {Raw Tx Pk Pub Addr : Type} [DecidableEq Addr]
    (env : BidEnv Raw Tx Pk Pub Addr) (args : BidArgs Raw) : BidTrace :=
  if env.enabled = false then
    { result := GoResult.err "builder is not enabled", blockCheckRan := false,
      sigCheckRan := false, backendInvoked := false }
  else
    match args.message with
    | none =>
      { result := GoResult.panicked nilDerefMsg, blockCheckRan := false,
        sigCheckRan := false, backendInvoked := false }
    | some m =>
      match checkBasicMsg m with
      | GoResult.panicked p =>
        { result := GoResult.panicked p, blockCheckRan := false,
          sigCheckRan := false, backendInvoked := false }
      | GoResult.err e =>
        { result := GoResult.err e, blockCheckRan := false,
          sigCheckRan := false, backendInvoked := false }
      | GoResult.ok _ =>
        match checkBlock env m with
        | GoResult.panicked p =>
          { result := GoResult.panicked p, blockCheckRan := true,
            sigCheckRan := false, backendInvoked := false }
        | GoResult.err e =>
          { result := GoResult.err e, blockCheckRan := true,
            sigCheckRan := false, backendInvoked := false }
        | GoResult.ok txs =>
          match checkSignature env m args.signature with
          | GoResult.panicked p =>
            { result := GoResult.panicked p, blockCheckRan := true,
              sigCheckRan := true, backendInvoked := false }
          | GoResult.err e =>
            { result := GoResult.err e, blockCheckRan := true,
              sigCheckRan := true, backendInvoked := false }
          | GoResult.ok _ =>
            match env.backendBid (env.hexToAddress m.builderAddress) m.block
                txs m.gasValue m.builderFeeValue m.gasLimit with
            | Except.error e =>
              { result := GoResult.err e, blockCheckRan := true,
                sigCheckRan := true, backendInvoked := true }
            | Except.ok _ =>
              { result := GoResult.ok (), blockCheckRan := true,
                sigCheckRan := true, backendInvoked := true }

/-- Concrete bid environment for evaluating the ingress on explicit inputs:
builder enabled, current block number 100 with hash "H", and trivial external
collaborators. -/
def bidEnvEx : BidEnv Unit Unit Unit Unit String :=
  { enabled := true
    curNumber := 100
    curHash := "H"
    decodeTx := fun _ => Except.ok ()
    rlpEncode := fun _ => Except.ok []
    ecrecover := fun _ _ => Except.ok ()
    unmarshalPubkey := fun _ => Except.ok ()
    pubkeyToAddress := fun _ => "a"
    hexToAddress := fun _ => "a"
    backendBid := fun _ _ _ _ _ _ => Except.ok () }

/-- Concrete bid message that passes checkBasic and checkBlock against
`bidEnvEx`. -/
def bidMsgEx : BidMessage Unit :=
  { block := 101
    parentHash := "H"
    timestamp := 0
    builderAddress := "0xaaaaaaaaaaaaaaaaaaaaaaaaaaaaaaaaaaaaaaaa"
    gasLimit := 1
    gasValue := 2
    builderFeeValue := 1
    txs := [] }

/-- Claim C2 fails on the code: Bid does not terminate normally on every
input. A nil message makes checkBasic dereference a nil pointer (runtime
panic), and a signature that is not well-formed hex makes checkSignature
panic inside hexutil.MustDecode once the earlier checks pass. -/
theorem bid_crash_inputs :
    (Bid bidEnvEx ⟨none, "0xdead"⟩).result = GoResult.panicked nilDerefMsg ∧
    (Bid bidEnvEx ⟨some bidMsgEx, "zz"⟩).result =
      GoResult.panicked "hex string without 0x marker" := by
  constructor
  · rfl
  · rfl

/-- Claim C7: a bid whose gasValue equals its builderFeeValue is rejected
with an error before the chain-consistency check or the signature check
runs, and the backend bid hook is never invoked. -/
theorem bid_equal_fee_rejected {Raw Tx Pk Pub Addr : Type} [DecidableEq Addr]
    (env : BidEnv Raw Tx Pk Pub Addr) (args : BidArgs Raw)
    (m : BidMessage Raw) (hm : args.message = some m)
    (hfee : m.gasValue = m.builderFeeValue) :
    (∃ e, (Bid env args).result = GoResult.err e) ∧
    (Bid env args).blockCheckRan = false ∧
    (Bid env args).sigCheckRan = false ∧
    (Bid env args).backendInvoked = false := by
  have hb : ∃ e, checkBasicMsg m = GoResult.err e := by
    unfold checkBasicMsg
    split_ifs with h1 h2 h3 h4 h5 h6 h7 h8
    any_goals exact ⟨_, rfl⟩
    exact absurd (le_of_eq hfee) h6
  rcases hb with ⟨e, he⟩
  cases henabled : env.enabled
  · refine ⟨⟨"builder is not enabled", ?_⟩, ?_, ?_, ?_⟩ <;>
      simp [Bid, henabled, hm]
  · refine ⟨⟨e, ?_⟩, ?_, ?_, ?_⟩ <;> simp [Bid, henabled, hm, he]

/-- Concrete bid message whose gasValue equals its builderFeeValue. -/
def bidMsgFee : BidMessage Unit :=
  { block := 101
    parentHash := "H"
    timestamp := 0
    builderAddress := "0xaaaaaaaaaaaaaaaaaaaaaaaaaaaaaaaaaaaaaaaa"
    gasLimit := 1
    gasValue := 5
    builderFeeValue := 5
    txs := [] }

/-- Witness for C7 at a concrete bid whose gasValue equals the builder fee. -/
theorem bid_equal_fee_rejected_w :
    (∃ e, (Bid bidEnvEx ⟨some bidMsgFee, "0xdead"⟩).result =
      GoResult.err e) ∧
    (Bid bidEnvEx ⟨some bidMsgFee, "0xdead"⟩).blockCheckRan = false ∧
    (Bid bidEnvEx ⟨some bidMsgFee, "0xdead"⟩).sigCheckRan = false ∧
    (Bid bidEnvEx ⟨some bidMsgFee, "0xdead"⟩).backendInvoked = false :=
  bid_equal_fee_rejected bidEnvEx ⟨some bidMsgFee, "0xdead"⟩ bidMsgFee rfl rfl

/-! ## Relay block-proposal ingress (`Proposer.ProposeBlock`,
grpc proposer file, builder_api.go source lines 363-402) -/

/-- ProposeBlockRequest, generic in the raw-payload type: the list of encoded
transactions plus the block fields, all uint64 values modelled as Nat (they
are compared, never wrapped). -/
structure ProposeBlockRequest (Raw : Type) where
  payload : List Raw
  blockNumber : Nat
  prevBlockHash : String
  blockReward : Nat
  gasLimit : Nat
  gasUsed : Nat
  mevRelay : String

/-- External collaborators of the gRPC proposal ingress: the current chain
head number, the binary transaction codec, and the backend ProposedBlock
pipeline (returning a simulation duration or an error). -/
structure ProposerEnv (Raw Tx : Type) where
  headNumber : Nat
  decodeTx : Raw → Except String Tx
  pipeline : String → Nat → String → Nat → Nat → Nat → List Tx →
    Except String Nat

/-- Observable outcome of one ProposeBlock call: the gRPC result (the
simulation duration of the response on success) and whether the backend
pipeline was invoked. -/
structure ProposeTrace where
  result : Except String Nat
  pipelineInvoked : Bool

/-- Proposer.ProposeBlock: reject an empty payload, a missing (zero) block
number, or a proposed block number not strictly greater than the current
head (big.Int Cmp < 1); then decode every transaction payload; only then
invoke the backend ProposedBlock pipeline, whose error is wrapped into an
internal status code. -/
def ProposerProposeBlock {Raw Tx : Type} (env : ProposerEnv Raw Tx)
    (req : ProposeBlockRequest Raw) : ProposeTrace :=
  if req.payload.length = 0 then
    { result := Except.error "proposed block missing txs",
      pipelineInvoked := false }
  else if req.blockNumber = 0 then
    { result := Except.error "proposed block missing blockNumber",
      pipelineInvoked := false }
  else if req.blockNumber ≤ env.headNumber then
    { result := Except.error "proposed block contains incorrect blockNumber",
      pipelineInvoked := false }
  else
    match decodeTxs env.decodeTx req.payload with
    | Except.error e =>
      { result := Except.error e, pipelineInvoked := false }
    | Except.ok txs =>
      match env.pipeline req.mevRelay req.blockNumber req.prevBlockHash
          req.blockReward req.gasLimit req.gasUsed txs with
      | Except.error e =>
        { result := Except.error e, pipelineInvoked := true }
      | Except.ok d =>
        { result := Except.ok d, pipelineInvoked := true }

/-- Claim C8: the gRPC proposal ingress rejects, with an error and without
invoking the pipeline, every request whose payload is empty, whose block
number is zero, or whose block number is not strictly greater than the
current head; in particular a block number equal to the head is rejected. -/
theorem proposeBlock_rejects {Raw Tx : Type} (env : ProposerEnv Raw Tx)
    (req : ProposeBlockRequest Raw)
    (h : req.payload = [] ∨ req.blockNumber = 0 ∨
      req.blockNumber ≤ env.headNumber) :
    (∃ e, (ProposerProposeBlock env req).result = Except.error e) ∧
    (ProposerProposeBlock env req).pipelineInvoked = false := by
  by_cases hp : req.payload.length = 0
  · refine ⟨⟨"proposed block missing txs", ?_⟩, ?_⟩ <;>
      simp [ProposerProposeBlock, hp]
  · by_cases hn : req.blockNumber = 0
    · refine ⟨⟨"proposed block missing blockNumber", ?_⟩, ?_⟩ <;>
        simp [ProposerProposeBlock, hp, hn]
    · have hle : req.blockNumber ≤ env.headNumber := by
        rcases h with h | h | h
        · exact absurd (by simp [h]) hp
        · exact absurd h hn
        · exact h
      refine ⟨⟨"proposed block contains incorrect blockNumber", ?_⟩, ?_⟩ <;>
        simp [ProposerProposeBlock, hp, hn, hle]

/-- Witness for C8: with the chain head at 100, a request whose proposed
block number is also 100 (equal, not strictly greater) is rejected with no
pipeline invocation. -/
theorem proposeBlock_rejects_w :
    (∃ e, (ProposerProposeBlock
      ⟨100, fun _ => Except.ok (), fun _ _ _ _ _ _ _ => Except.ok 0⟩
      ⟨[()], 100, "H", 1, 1, 1, "relay"⟩).result = Except.error e) ∧
    (ProposerProposeBlock
      ⟨100, fun _ => Except.ok (), fun _ _ _ _ _ _ _ => Except.ok 0⟩
      ⟨[()], 100, "H", 1, 1, 1, "relay"⟩).pipelineInvoked = false :=
  proposeBlock_rejects
    ⟨100, fun _ => Except.ok (), fun _ _ _ _ _ _ _ => Except.ok 0⟩
    ⟨[()], 100, "H", 1, 1, 1, "relay"⟩ (Or.inr (Or.inr (by decide)))
